import Mathlib

/-!
Shallow embedding of `lib/reporters/verbose.js` — AVA's verbose console
reporter — and proofs about the claims of its specification.

Modelling conventions:
* JS strings are Lean `String`s.  Template literals become `++` chains.
* Each `this.writeLine(str)` call is recorded as a `Chunk.line str`
  (the stream receives `str ++ "\n"`); raw passthrough writes
  (`worker-stdout` / `worker-stderr`) are `Chunk.raw`.
* Fallible code is `Option`: `consumeStateChange` returns `none` exactly
  when the JS method would throw.
* The colour/theme collaborators (`colors.js`, `chalk`) are out of scope
  per §1 of the spec; they are modelled as injective ANSI-style wrappers
  with chalk's empty-string behaviour (`chalk.red '' = ''`).
* Out-of-scope pure formatting collaborators (`code-excerpt`,
  `format-serialized-error`, `improper-usage-messages`, `pretty-ms`,
  `path.relative`, `prefix-title`) are modelled from the spec; the
  reporter only branches on their results, which are carried on the
  event/error values or given trivial stand-ins.
* Object identity (JS `!==` in `endRun`'s failure loop) is modelled by an
  `id : Nat` field on failure events; distinct event objects have
  distinct ids.
-/

/-- JS `str.split('\n')` on the character list (structural, kernel-reducible). -/
def splitNL : List Char → List (List Char)
  | [] => [[]]
  | '\n' :: rest => [] :: splitNL rest
  | c :: rest =>
    match splitNL rest with
    | [] => [[c]]
    | l :: ls => (c :: l) :: ls

/-- The display lines a string occupies when written followed by `"\n"`:
`write (s ++ "\n")` contributes exactly `splitLines s` newline-terminated lines. -/
def splitLines (s : String) : List String :=
  (splitNL s.data).map String.mk

/-- Join lines back with `"\n"` separators. -/
def joinNL : List String → String
  | [] => ""
  | [l] => l
  | l :: ls => l ++ "\n" ++ joinNL ls

/-- A line consisting only of whitespace (the `^(?!\s*$)` test of indent-string). -/
def wsOnly (l : List Char) : Bool := l.all Char.isWhitespace

def spacesN (n : Nat) : String := String.mk (List.replicate n ' ')

/-- Modelled from the spec: the `indent-string` collaborator (out-of-scope
formatting helper, §1): indents every line that is not whitespace-only by
`n` spaces. -/
def indentString (n : Nat) (s : String) : String :=
  joinNL ((splitNL s.data).map
    (fun l => if wsOnly l then String.mk l else spacesN n ++ String.mk l))

/-- Drop leading `(\r?\n)+` (trim-off-newlines collaborator, leading part). -/
def dropLeadingNLs : List Char → List Char
  | '\n' :: rest => dropLeadingNLs rest
  | '\r' :: '\n' :: rest => dropLeadingNLs rest
  | l => l

/-- Drop trailing `(\r?\n)+` given the reversed character list. -/
def dropTrailingNLsRev : List Char → List Char
  | '\n' :: '\r' :: rest => dropTrailingNLsRev rest
  | '\n' :: rest => dropTrailingNLsRev rest
  | l => l

/-- Modelled from the spec: the `trim-off-newlines` collaborator
(out-of-scope formatting helper, §1). -/
def trimOffNewlines (s : String) : String :=
  String.mk ((dropTrailingNLsRev (dropLeadingNLs s.data).reverse).reverse)

/-- The `plur` collaborator: singular exactly when the count is 1
(`Math.abs(count) === 1`; counts here are naturals). -/
def plur (word plural : String) (n : Nat) : String :=
  if n = 1 then word else plural

/-- Chalk styling: wraps non-empty text in open/close codes, and maps the
empty string to itself (chalk's behaviour). -/
def styleWrap (op cl s : String) : String :=
  if s = "" then "" else op ++ s ++ cl

/-- Modelled from the spec: colour selection is out of scope (§1); the
`colors.js` styles are modelled as distinct injective ANSI wrappers. -/
def colors.error (s : String) : String := styleWrap "\x1b[31m" "\x1b[39m" s

def colors.pass (s : String) : String := styleWrap "\x1b[32m" "\x1b[39m" s

def colors.skip (s : String) : String := styleWrap "\x1b[33m" "\x1b[39m" s

def colors.todo (s : String) : String := styleWrap "\x1b[34m" "\x1b[39m" s

def colors.information (s : String) : String := styleWrap "\x1b[35m" "\x1b[39m" s

def colors.title (s : String) : String := styleWrap "\x1b[1m\x1b[37m" "\x1b[39m\x1b[22m" s

def colors.log (s : String) : String := styleWrap "\x1b[90m" "\x1b[39m" s

def colors.stack (s : String) : String := styleWrap "\x1b[31m" "\x1b[39m" s

def colors.errorStack (s : String) : String := styleWrap "\x1b[90m" "\x1b[39m" s

def colors.errorSource (s : String) : String := styleWrap "\x1b[90m" "\x1b[39m" s

def colors.duration (s : String) : String := styleWrap "\x1b[90m\x1b[2m" "\x1b[22m\x1b[39m" s

/-- Chalk `gray.dim` styling used for the watch-mode rule and timestamp. -/
def chalkGrayDim (s : String) : String := styleWrap "\x1b[90m\x1b[2m" "\x1b[22m\x1b[39m" s

/-- The `figures.cross` glyph. -/
def figCross : String := "✖"

/-- The `figures.tick` glyph. -/
def figTick : String := "✔"

/-- The `figures.info` glyph. -/
def figInfo : String := "ℹ"

/-- Modelled from the spec: `path.relative('.', f)` is a pure path-display
collaborator (§6); file identifiers are displayed as given. -/
def pathRelative (s : String) : String := s

/-- Modelled from the spec: the `pretty-ms` duration-formatting collaborator
(out of scope, §1). -/
def prettyMs (n : Nat) : String := toString n ++ "ms"

/-- An error's source location; `excerpt` carries the result of the
out-of-scope `code-excerpt` collaborator (`""` = no excerpt). -/
structure ErrSource where
  file : String
  line : Nat
  excerpt : String
  deriving DecidableEq

/-- The error shape the reporter inspects.  `fsePrintMessage`,
`fseFormatted` and `improperUsage` carry the results of the out-of-scope
`format-serialized-error` and `improper-usage-messages` collaborators
(`""` = absent, matching JS falsiness).  `stack = ""` models an absent or
empty stack (both falsy in JS). -/
structure Err where
  message : String
  stack : String
  summary : String
  source : Option ErrSource
  avaAssertionError : Bool
  nonErrorObject : Bool
  formatted : String
  fsePrintMessage : Bool
  fseFormatted : String
  improperUsage : String
  deriving DecidableEq

/-- A `hook-failed` / `test-failed` event as stored in `this.failures`.
`id` models JS object identity. -/
structure FailEvt where
  id : Nat
  isHook : Bool
  testFile : String
  title : String
  err : Err
  logs : List String
  deriving DecidableEq

/-- A `test-passed` event (`knownFailing` passes are stored in
`this.knownFailures`).  `id` models JS object identity. -/
structure PassEvt where
  id : Nat
  testFile : String
  title : String
  knownFailing : Bool
  duration : Nat
  logs : List String
  deriving DecidableEq

/-- Per-file stats from `this.stats.byFile`. -/
structure FileStats where
  declaredTests : Nat
  remainingTests : Nat
  deriving DecidableEq

/-- The run-wide stats snapshot set by the `stats` event. -/
structure Stats where
  failedHooks : Nat
  failedTests : Nat
  passedTests : Nat
  passedKnownFailingTests : Nat
  skippedTests : Nat
  todoTests : Nat
  unhandledRejections : Nat
  uncaughtExceptions : Nat
  remainingTests : Nat
  files : Nat
  finishedWorkers : Nat
  selectedTests : Nat
  byFile : List (String × FileStats)
  deriving DecidableEq

/-- The event stream variants `consumeStateChange` dispatches on.
`unknown` stands for any unrecognized `type` tag (the `default` arm). -/
inductive Event where
  | declaredTest : Event
  | hookFailed : FailEvt → Event
  | internalError : Option String → Err → Event
  | missingAvaImport : String → Event
  | selectedTest : String → String → Bool → Bool → Event
  | statsEvent : Stats → Event
  | testFailed : FailEvt → Event
  | testPassed : PassEvt → Event
  | timeout : Nat → Event
  | uncaughtException : String → Err → Event
  | unhandledRejection : String → Err → Event
  | workerFailed : String → Option Nat → String → Event
  | workerFinished : String → Bool → Event
  | workerStderr : String → Event
  | workerStdout : String → Event
  | unknown : Event
  deriving DecidableEq

/-- The title prefixer chosen at run start: the identity, or the
`prefix-title` collaborator closed over `plan.filePathPrefix`. -/
inductive Prefixer where
  | ident : Prefixer
  | withPrefix : String → Prefixer
  deriving DecidableEq

/-- Modelled from the spec: the `prefix-title` collaborator (out of scope,
§1) maps (file identifier, title) to a display title by prepending a
common-path-stripped file prefix. -/
def prefixTitleModel (filePathPrefix testFile title : String) : String :=
  (if filePathPrefix.isPrefixOf testFile
    then testFile.drop filePathPrefix.length else testFile) ++ " › " ++ title

def applyPrefixer : Prefixer → String → String → String
  | .ident, _, title => title
  | .withPrefix fpp, testFile, title => prefixTitleModel fpp testFile title

/-- One write to the output stream: a full line (`writeLine`) or a raw
passthrough chunk (`worker-stdout` / `worker-stderr`). -/
inductive Chunk where
  | line : String → Chunk
  | raw : String → Chunk
  deriving DecidableEq

/-- The reporter's mutable state (`reset` fields plus the constructor
options `watching` and the stream's `columns`; `columns = 0` models a
stream without a column count, matching `this.stream.columns || 80`). -/
structure State where
  watching : Bool
  columns : Nat
  failFastEnabled : Bool
  failures : List FailEvt
  filesWithMissingAvaImports : List String
  knownFailures : List PassEvt
  lastLineIsEmpty : Bool
  matching : Bool
  prefixer : Prefixer
  previousFailures : Nat
  removePreviousListener : Option Nat
  stats : Option Stats
  deriving DecidableEq

/-- The plan object handed to `startRun`; `subId` names the subscription
handle `plan.status.on` would return. -/
structure Plan where
  failFastEnabled : Bool
  matching : Bool
  previousFailures : Nat
  files : List String
  filePathPrefix : String
  runVector : Nat
  subId : Nat
  deriving DecidableEq

/-- Subscription bookkeeping actions performed by `reset` / `startRun`. -/
inductive SubAction where
  | unsubscribe : Nat → SubAction
  | subscribe : Nat → SubAction
  deriving DecidableEq

/-- Tracking of `this.lastLineIsEmpty`: after a sequence of `writeLine` calls
the flag is the emptiness of the last written string; no writes leave it
unchanged. -/
def afterLines (st : State) (ls : List String) : State :=
  match ls.getLast? with
  | none => st
  | some l => { st with lastLineIsEmpty := l == "" }

/-- The hoisted `fileStats` computation: `this.stats && evt.testFile ?
this.stats.byFile.get(evt.testFile) : null` (`""` is falsy in JS). -/
def fileStatsFor (st : State) (tf : String) : Option FileStats :=
  match st.stats with
  | none => none
  | some s => if tf = "" then none else s.byFile.lookup tf

/-- Source `writeErr(evt)`: the lines of the shared error detail block (§4.2). -/
def writeErrLines (err : Err) : List String :=
  (match err.source with
    | some src =>
      ["  " ++ colors.errorSource (src.file ++ ":" ++ toString src.line)] ++
        (if src.excerpt = "" then [] else ["", indentString 2 src.excerpt])
    | none => []) ++
  (if err.avaAssertionError then
      (if err.fsePrintMessage then ["", indentString 2 err.message] else []) ++
      (if err.fseFormatted = "" then [] else ["", indentString 2 err.fseFormatted]) ++
      (if err.improperUsage = "" then [] else ["", indentString 2 err.improperUsage])
    else if err.nonErrorObject then
      [indentString 2 (trimOffNewlines err.formatted)]
    else
      ["", indentString 2 err.message]) ++
  (if err.stack ≠ "" ∧ '\n' ∈ err.stack.data then
      ["", indentString 2 (colors.errorStack err.stack)]
    else [])

/-- One log line of `writeLogs`: indent by 6, then replace a leading run of
six spaces by four spaces, the information marker and a space. -/
def logLineOut (log : String) : String :=
  let logLines := indentString 6 (colors.log log)
  if logLines.data.take 6 = List.replicate 6 ' ' then
    "    " ++ colors.information figInfo ++ " " ++ String.mk (logLines.data.drop 6)
  else logLines

/-- Source `writeLogs(evt)`. -/
def writeLogsLines (logs : List String) : List String :=
  logs.map logLineOut

/-- Events `writeTestSummary` is called on: failures (hook/test) or passes. -/
inductive SummaryEvt where
  | fail : FailEvt → SummaryEvt
  | pass : PassEvt → SummaryEvt
  deriving DecidableEq

/-- Source `writeTestSummary(evt)`. -/
def writeTestSummaryLines (pfx : Prefixer) : SummaryEvt → List String
  | .fail e =>
    ("  " ++ colors.error figCross ++ " " ++ applyPrefixer pfx e.testFile e.title
      ++ " " ++ colors.error e.err.message) :: writeLogsLines e.logs
  | .pass e =>
    if e.knownFailing then
      ("  " ++ colors.error figTick ++ " "
        ++ colors.error (applyPrefixer pfx e.testFile e.title)) :: writeLogsLines e.logs
    else
      -- Display duration only over a threshold of 100ms
      ("  " ++ colors.pass figTick ++ " " ++ applyPrefixer pfx e.testFile e.title
        ++ (if 100 < e.duration then colors.duration (" (" ++ prettyMs e.duration ++ ")")
            else "")) :: writeLogsLines e.logs

/-- Source `writeFailure(evt)`: title, logs, blank, error detail block. -/
def writeFailureLines (pfx : Prefixer) (e : FailEvt) : List String :=
  ("  " ++ colors.title (applyPrefixer pfx e.testFile e.title))
    :: writeLogsLines e.logs ++ [""] ++ writeErrLines e.err

/-- A failure's detail block as output chunks. -/
def failBlock (pfx : Prefixer) (e : FailEvt) : List Chunk :=
  (writeFailureLines pfx e).map Chunk.line

/-- Source `consumeStateChange(evt)`: returns the new state and the chunks written,
or `none` when the JS method would throw (the `fileStats` null dereference
in the `worker-finished` case). -/
def consumeStateChange (st : State) (evt : Event) : Option (State × List Chunk) :=
  match evt with
  | .declaredTest => some (st, [])
  | .hookFailed e =>
    let ls := writeTestSummaryLines st.prefixer (.fail e)
    some (afterLines { st with failures := st.failures ++ [e] } ls, ls.map Chunk.line)
  | .internalError tf err =>
    let ls := [match tf with
        | some f => colors.error ("  " ++ figCross ++ " Internal error when running "
            ++ pathRelative f)
        | none => colors.error ("  " ++ figCross ++ " Internal error"),
      indentString 2 (colors.stack err.summary),
      indentString 2 (colors.errorStack err.stack),
      "\n\n"]
    some (afterLines st ls, ls.map Chunk.line)
  | .missingAvaImport tf =>
    let ls := [colors.error ("  " ++ figCross ++ " No tests found in " ++ pathRelative tf
        ++ ", make sure to import \"ava\" at the top of your test file")]
    some (afterLines { st with
        filesWithMissingAvaImports :=
          if tf ∈ st.filesWithMissingAvaImports then st.filesWithMissingAvaImports
          else st.filesWithMissingAvaImports ++ [tf] } ls,
      ls.map Chunk.line)
  | .selectedTest tf title skp tdo =>
    let ls :=
      if skp then ["  " ++ colors.skip ("- " ++ applyPrefixer st.prefixer tf title)]
      else if tdo then ["  " ++ colors.todo ("- " ++ applyPrefixer st.prefixer tf title)]
      else []
    some (afterLines st ls, ls.map Chunk.line)
  | .statsEvent s => some ({ st with stats := some s }, [])
  | .testFailed e =>
    let ls := writeTestSummaryLines st.prefixer (.fail e)
    some (afterLines { st with failures := st.failures ++ [e] } ls, ls.map Chunk.line)
  | .testPassed e =>
    let ls := writeTestSummaryLines st.prefixer (.pass e)
    some (afterLines
      { st with knownFailures :=
          if e.knownFailing then st.knownFailures ++ [e] else st.knownFailures } ls,
      ls.map Chunk.line)
  | .timeout period =>
    let ls := [colors.error ("  " ++ figCross
        ++ " Exited because no new tests completed within the last "
        ++ toString period ++ "ms of inactivity")]
    some (afterLines st ls, ls.map Chunk.line)
  | .uncaughtException tf err =>
    let ls := (if st.lastLineIsEmpty then [] else [""]) ++
      ["  " ++ colors.title ("Uncaught exception in " ++ pathRelative tf), ""] ++
      writeErrLines err ++ [""]
    some (afterLines st ls, ls.map Chunk.line)
  | .unhandledRejection tf err =>
    let ls := (if st.lastLineIsEmpty then [] else [""]) ++
      ["  " ++ colors.title ("Unhandled rejection in " ++ pathRelative tf), ""] ++
      writeErrLines err ++ [""]
    some (afterLines st ls, ls.map Chunk.line)
  | .workerFailed tf code signal =>
    if tf ∈ st.filesWithMissingAvaImports then some (st, [])
    else
      let ls := match code with
        | some n =>
          if n ≠ 0 then
            [colors.error ("  " ++ figCross ++ " " ++ pathRelative tf
              ++ " exited with a non-zero exit code: " ++ toString n)]
          else
            [colors.error ("  " ++ figCross ++ " " ++ pathRelative tf
              ++ " exited due to " ++ signal)]
        | none =>
          [colors.error ("  " ++ figCross ++ " " ++ pathRelative tf
            ++ " exited due to " ++ signal)]
      some (afterLines st ls, ls.map Chunk.line)
  | .workerFinished tf forcedExit =>
    if forcedExit ∨ tf ∈ st.filesWithMissingAvaImports then some (st, [])
    else
      match fileStatsFor st tf with
      | none => none  -- JS: TypeError reading `declaredTests` of null
      | some fs =>
        let ls :=
          if fs.declaredTests = 0 then
            [colors.error ("  " ++ figCross ++ " No tests found in " ++ pathRelative tf)]
          else if ¬st.failFastEnabled ∧ 0 < fs.remainingTests then
            [colors.error ("  " ++ figCross ++ " " ++ toString fs.remainingTests ++ " "
              ++ plur "test" "tests" fs.remainingTests ++ " remaining in "
              ++ pathRelative tf)]
          else []
        some (afterLines st ls, ls.map Chunk.line)
  | .workerStderr chunk => some (st, [Chunk.raw chunk])
  | .workerStdout chunk => some (st, [Chunk.raw chunk])
  | .unknown => some (st, [])

/-- Consume a whole arrival-ordered event sequence; `none` as soon as one
`consumeStateChange` call throws. -/
def consumeAll (st : State) : List Event → Option (State × List Chunk)
  | [] => some (st, [])
  | e :: es =>
    match consumeStateChange st e with
    | none => none
    | some (st', out) =>
      match consumeAll st' es with
      | none => none
      | some (st'', out') => some (st'', out ++ out')

/-- Source `reset()`: clears run state (unsubscribing any previous listener) and
returns the subscription actions performed. -/
def reset (st : State) : State × List SubAction :=
  ({ watching := st.watching
     columns := st.columns
     failFastEnabled := false
     failures := []
     filesWithMissingAvaImports := []
     knownFailures := []
     lastLineIsEmpty := false
     matching := false
     prefixer := .ident
     previousFailures := 0
     removePreviousListener := none
     stats := none },
   match st.removePreviousListener with
   | some i => [SubAction.unsubscribe i]
   | none => [])

/-- Source `startRun(plan)`: reset, plan-derived initialization, prefixer choice,
subscription, and the leading rule/blank writes. -/
def startRun (st : State) (p : Plan) : State × List SubAction × List Chunk :=
  let r := reset st
  let s1 := { r.1 with
    failFastEnabled := p.failFastEnabled
    matching := p.matching
    previousFailures := p.previousFailures
    prefixer := if st.watching ∨ 1 < p.files.length
      then Prefixer.withPrefix p.filePathPrefix else Prefixer.ident
    removePreviousListener := some p.subId }
  let ls : List String :=
    (if st.watching ∧ 1 < p.runVector then
        [chalkGrayDim (String.mk (List.replicate
          (if st.columns = 0 then 80 else st.columns) '─'))]
      else []) ++ [""]
  (afterLines s1 ls, r.2 ++ [SubAction.subscribe p.subId], ls.map Chunk.line)

/-- The watch-mode timestamp suffix attached to the first emitted count
line (`firstLinePostfix`); `now` is the wall-clock time string read by
`endRun`. -/
def timePostfix (watching : Bool) (now : String) : String :=
  if watching then " " ++ chalkGrayDim ("[" ++ now ++ "]") else ""

/-- Step 3–4 of the end-of-run summary: the conditional count lines, with
the `firstLinePostfix` mutable threaded through the first three guards. -/
def countsSection (watching : Bool) (previousFailures : Nat) (s : Stats)
    (now : String) : List Chunk :=
  let p0 := timePostfix watching now
  let p1 := if 0 < s.failedHooks then "" else p0
  let p2 := if 0 < s.failedTests then "" else p1
  (if 0 < s.failedHooks then
      [Chunk.line ("  " ++ colors.error (toString s.failedHooks ++ " "
        ++ plur "hook" "hooks" s.failedHooks ++ " failed") ++ p0)]
    else []) ++
  (if 0 < s.failedTests then
      [Chunk.line ("  " ++ colors.error (toString s.failedTests ++ " "
        ++ plur "test" "tests" s.failedTests ++ " failed") ++ p1)]
    else []) ++
  (if s.failedHooks = 0 ∧ s.failedTests = 0 ∧ 0 < s.passedTests then
      [Chunk.line ("  " ++ colors.pass (toString s.passedTests ++ " "
        ++ plur "test" "tests" s.passedTests ++ " passed") ++ p2)]
    else []) ++
  (if 0 < s.passedKnownFailingTests then
      [Chunk.line ("  " ++ colors.error (toString s.passedKnownFailingTests ++ " "
        ++ plur "known failure" "known failures" s.passedKnownFailingTests))]
    else []) ++
  (if 0 < s.skippedTests then
      [Chunk.line ("  " ++ colors.skip (toString s.skippedTests ++ " "
        ++ plur "test" "tests" s.skippedTests ++ " skipped"))]
    else []) ++
  (if 0 < s.todoTests then
      [Chunk.line ("  " ++ colors.todo (toString s.todoTests ++ " "
        ++ plur "test" "tests" s.todoTests ++ " todo"))]
    else []) ++
  (if 0 < s.unhandledRejections then
      [Chunk.line ("  " ++ colors.error (toString s.unhandledRejections
        ++ " unhandled " ++ plur "rejection" "rejections" s.unhandledRejections))]
    else []) ++
  (if 0 < s.uncaughtExceptions then
      [Chunk.line ("  " ++ colors.error (toString s.uncaughtExceptions
        ++ " uncaught " ++ plur "exception" "exceptions" s.uncaughtExceptions))]
    else []) ++
  (if 0 < previousFailures then
      [Chunk.line ("  " ++ colors.error (toString previousFailures ++ " previous "
        ++ plur "failure" "failures" previousFailures
        ++ " in test files that were not rerun"))]
    else [])

/-- Step 5: the known-failures list, guarded by the stats counter. -/
def knownSection (pfx : Prefixer) (s : Stats) (knowns : List PassEvt) : List Chunk :=
  if 0 < s.passedKnownFailingTests then
    Chunk.line "" ::
      knowns.map (fun e =>
        Chunk.line ("  " ++ colors.error (applyPrefixer pfx e.testFile e.title)))
  else []

/-- Source `shouldWriteFailFastDisclaimer`. -/
def shouldDisc (failFastEnabled : Bool) (s : Stats) : Bool :=
  failFastEnabled && (decide (0 < s.remainingTests)
    || decide (s.finishedWorkers < s.files))

/-- The id of the last element (`this.failures[this.failures.length - 1]`). -/
def lastIdOf (e : FailEvt) : List FailEvt → Nat
  | [] => e.id
  | e' :: es => lastIdOf e' es

/-- The three blank lines separating failure blocks. -/
def blank3 : List Chunk := [Chunk.line "", Chunk.line "", Chunk.line ""]

/-- The body of `endRun`'s failure loop: each failure's detail block,
followed by three blank lines unless this is the last failure (by object
identity) and no fail-fast disclaimer follows. -/
def renderFailures (pfx : Prefixer) (lastId : Nat) (disc : Bool) :
    List FailEvt → List Chunk
  | [] => []
  | e :: es =>
    failBlock pfx e ++
      (if e.id ≠ lastId ∨ disc = true then blank3 else []) ++
      renderFailures pfx lastId disc es

/-- Step 6: blank line then the failure blocks, when any were recorded. -/
def failuresSection (pfx : Prefixer) (failFastEnabled : Bool) (s : Stats)
    (fails : List FailEvt) : List Chunk :=
  match fails with
  | [] => []
  | f :: fs =>
    Chunk.line "" :: renderFailures pfx (lastIdOf f fs) (shouldDisc failFastEnabled s) (f :: fs)

/-- The `remaining` string of the fail-fast disclaimer. -/
def remainingText (r files finished : Nat) : String :=
  (if 0 < r then
      "At least " ++ toString r ++ " " ++ plur "test was" "tests were" r ++ " skipped"
        ++ (if finished < files then ", as well as " else "")
    else "") ++
  (if finished < files then
      toString (files - finished) ++ " "
        ++ plur "test file" "test files" (files - finished)
        ++ (if r = 0 then
              " " ++ plur "was" "were" (files - finished) ++ " skipped"
            else "")
    else "")

/-- Step 7: the fail-fast disclaimer line. -/
def disclaimerSection (failFastEnabled : Bool) (s : Stats) : List Chunk :=
  if shouldDisc failFastEnabled s then
    [Chunk.line ("  " ++ colors.information ("`--fail-fast` is on. "
      ++ remainingText s.remainingTests s.files s.finishedWorkers ++ "."))]
  else []

/-- Source `endRun()`: the end-of-run summary, rendered purely from accumulated
state; `now` is the wall-clock time string for the watch-mode postfix. -/
def endRun (st : State) (now : String) : List Chunk :=
  match st.stats with
  | none =>
    [Chunk.line (colors.error ("  " ++ figCross ++ " Couldn't find any files to test")),
     Chunk.line ""]
  | some s =>
    if st.matching ∧ s.selectedTests = 0 then
      [Chunk.line (colors.error ("  " ++ figCross ++ " Couldn't find any matching tests")),
       Chunk.line ""]
    else
      [Chunk.line ""]
        ++ countsSection st.watching st.previousFailures s now
        ++ knownSection st.prefixer s st.knownFailures
        ++ failuresSection st.prefixer st.failFastEnabled s st.failures
        ++ disclaimerSection st.failFastEnabled s
        ++ [Chunk.line ""]

/-- The display lines of a sequence of line writes (raw passthrough chunks
are not line-structured and contribute nothing; the claims only apply this
to line-only outputs). -/
def displayLines (out : List Chunk) : List String :=
  out.foldr
    (fun c acc => match c with
      | Chunk.line s => splitLines s ++ acc
      | Chunk.raw _ => acc) []

/-- Whether a display-line sequence ends with exactly two blank lines:
the final two lines are blank and the line before them (if any) is not. -/
def endsWithExactlyTwoBlanks (ls : List String) : Bool :=
  match ls.reverse with
  | "" :: "" :: rest =>
    match rest with
    | [] => true
    | x :: _ => x != ""
  | _ => false

/-- Decomposition `out = seps₀ ++ blocks₀ ++ seps₁ ++ blocks₁ ++ ⋯ ++ blocksₙ₋₁ ++ sepsₙ`:
the blocks appear contiguously, in order, each exactly once per list entry. -/
def interleave : List (List Chunk) → List (List Chunk) → List Chunk
  | [], [] => []
  | [], s :: _ => s
  | b :: bs, [] => b ++ interleave bs []
  | b :: bs, s :: ss => s ++ b ++ interleave bs ss

/-- The failure events of an arrival-ordered event sequence
(`hook-failed` and `test-failed`), in arrival order. -/
def failuresOfEvents (es : List Event) : List FailEvt :=
  es.filterMap (fun e =>
    match e with
    | .hookFailed f => some f
    | .testFailed f => some f
    | _ => none)

/-- The known-failing `test-passed` events of an arrival-ordered event
sequence, in arrival order. -/
def knownOfEvents (es : List Event) : List PassEvt :=
  es.filterMap (fun e =>
    match e with
    | .testPassed p => if p.knownFailing then some p else none
    | _ => none)

/-! ### State-tracking lemmas -/

theorem afterLines_failures (st : State) (ls : List String) :
    (afterLines st ls).failures = st.failures := by
  rcases hl : ls.getLast? with _ | l <;> simp [afterLines, hl]

theorem afterLines_knownFailures (st : State) (ls : List String) :
    (afterLines st ls).knownFailures = st.knownFailures := by
  rcases hl : ls.getLast? with _ | l <;> simp [afterLines, hl]

theorem consume_state_fields (st : State) (e : Event) (st' : State) (o : List Chunk)
    (h : consumeStateChange st e = some (st', o)) :
    st'.failures = st.failures ++ failuresOfEvents [e] ∧
    st'.knownFailures = st.knownFailures ++ knownOfEvents [e] := by
  cases e <;>
    (simp only [consumeStateChange] at h
     repeat' split at h
     all_goals
       first
       | (simp only [Option.some.injEq, Prod.mk.injEq] at h
          obtain ⟨h1, h2⟩ := h
          subst h1
          simp_all [failuresOfEvents, knownOfEvents, afterLines_failures,
            afterLines_knownFailures])
       | simp at h)

theorem failuresOfEvents_cons (e : Event) (es : List Event) :
    failuresOfEvents (e :: es) = failuresOfEvents [e] ++ failuresOfEvents es := by
  cases e <;> simp [failuresOfEvents]

theorem knownOfEvents_cons (e : Event) (es : List Event) :
    knownOfEvents (e :: es) = knownOfEvents [e] ++ knownOfEvents es := by
  cases e <;> simp only [knownOfEvents, List.filterMap_cons, List.filterMap_nil] <;>
    (try split) <;> simp

theorem consumeAll_state_fields (es : List Event) : ∀ (st st' : State) (out : List Chunk),
    consumeAll st es = some (st', out) →
    st'.failures = st.failures ++ failuresOfEvents es ∧
    st'.knownFailures = st.knownFailures ++ knownOfEvents es := by
  induction es with
  | nil =>
    intro st st' out h
    simp only [consumeAll, Option.some.injEq, Prod.mk.injEq] at h
    simp [← h.1, failuresOfEvents, knownOfEvents]
  | cons e es ih =>
    intro st st' out h
    simp only [consumeAll] at h
    rcases hc : consumeStateChange st e with _ | ⟨st1, o1⟩ <;> simp only [hc] at h
    · exact Option.noConfusion h
    rcases ha : consumeAll st1 es with _ | ⟨st2, o2⟩ <;>
      simp only [ha, Option.some.injEq, Prod.mk.injEq] at h
    · exact Option.noConfusion h
    obtain ⟨h1, -⟩ := h
    subst h1
    obtain ⟨hf1, hk1⟩ := consume_state_fields st e st1 o1 hc
    obtain ⟨hf2, hk2⟩ := ih st1 st2 o2 ha
    constructor
    · rw [hf2, hf1]
      simp [failuresOfEvents_cons e es, List.append_assoc]
    · rw [hk2, hk1]
      simp [knownOfEvents_cons e es, List.append_assoc]

/-! ### Interleaving lemmas for the failure-block decomposition -/

theorem interleave_sep_absorb (bs : List (List Chunk)) (s : List Chunk)
    (ss : List (List Chunk)) :
    s ++ interleave bs ([] :: ss) = interleave bs (s :: ss) := by
  cases bs <;> simp [interleave]

theorem renderFailures_interleave (pfx : Prefixer) (lid : Nat) (disc : Bool)
    (fs : List FailEvt) :
    ∃ ss : List (List Chunk), ss.length = fs.length ∧
      renderFailures pfx lid disc fs = interleave (fs.map (failBlock pfx)) ([] :: ss) := by
  induction fs with
  | nil => exact ⟨[], rfl, rfl⟩
  | cons f fs ih =>
    obtain ⟨ss, hlen, hren⟩ := ih
    refine ⟨(if f.id ≠ lid ∨ disc = true then blank3 else []) :: ss, by simp [hlen], ?_⟩
    calc renderFailures pfx lid disc (f :: fs)
        = failBlock pfx f ++ ((if f.id ≠ lid ∨ disc = true then blank3 else []) ++
            interleave (fs.map (failBlock pfx)) ([] :: ss)) := by
          simp [renderFailures, hren, List.append_assoc]
      _ = failBlock pfx f ++ interleave (fs.map (failBlock pfx))
            ((if f.id ≠ lid ∨ disc = true then blank3 else []) :: ss) := by
          rw [interleave_sep_absorb]
      _ = interleave ((f :: fs).map (failBlock pfx))
            ([] :: (if f.id ≠ lid ∨ disc = true then blank3 else []) :: ss) := by
          simp [interleave]

/-- C1: for every event sequence consumed in one run, the failure detail
blocks rendered by `endRun` appear in exactly the arrival order of their
triggering `hook-failed` / `test-failed` events — the output decomposes as
an in-order interleaving of each recorded failure's block (no reordering,
no deduplication: one block per recorded event occurrence). -/
theorem C1_failure_blocks_in_arrival_order
    (st0 : State) (es : List Event) (st' : State) (out : List Chunk)
    (s : Stats) (now : String)
    (h0 : st0.failures = [])
    (h : consumeAll st0 es = some (st', out))
    (hs : st'.stats = some s)
    (hm : ¬(st'.matching = true ∧ s.selectedTests = 0)) :
    st'.failures = failuresOfEvents es ∧
    ∃ pre seps post, seps.length = st'.failures.length + 1 ∧
      endRun st' now =
        pre ++ interleave (st'.failures.map (failBlock st'.prefixer)) seps ++ post := by
  have hffs := (consumeAll_state_fields es st0 st' out h).1
  rw [h0, List.nil_append] at hffs
  refine ⟨hffs, ?_⟩
  have hend : endRun st' now =
      ([Chunk.line ""] ++ countsSection st'.watching st'.previousFailures s now
        ++ knownSection st'.prefixer s st'.knownFailures)
      ++ failuresSection st'.prefixer st'.failFastEnabled s st'.failures
      ++ (disclaimerSection st'.failFastEnabled s ++ [Chunk.line ""]) := by
    simp only [endRun, hs, if_neg hm]
    simp [List.append_assoc]
  rcases hfl : st'.failures with _ | ⟨f, fs⟩
  · refine ⟨[Chunk.line ""] ++ countsSection st'.watching st'.previousFailures s now
        ++ knownSection st'.prefixer s st'.knownFailures, [[]],
      disclaimerSection st'.failFastEnabled s ++ [Chunk.line ""], by simp, ?_⟩
    rw [hend, hfl]
    simp [failuresSection, interleave]
  · obtain ⟨ss, hlen, hren⟩ := renderFailures_interleave st'.prefixer (lastIdOf f fs)
      (shouldDisc st'.failFastEnabled s) (f :: fs)
    refine ⟨[Chunk.line ""] ++ countsSection st'.watching st'.previousFailures s now
        ++ knownSection st'.prefixer s st'.knownFailures, [Chunk.line ""] :: ss,
      disclaimerSection st'.failFastEnabled s ++ [Chunk.line ""], by simp [hlen], ?_⟩
    rw [hend, hfl]
    have : failuresSection st'.prefixer st'.failFastEnabled s (f :: fs) =
        interleave ((f :: fs).map (failBlock st'.prefixer)) ([Chunk.line ""] :: ss) := by
      rw [failuresSection, hren, ← interleave_sep_absorb]
      rfl
    rw [this]

/-! ### Concrete fixtures -/

/-- A freshly constructed reporter (the state `reset()` produces, with
`watching = false` and no column count). -/
def initState : State :=
  { watching := false, columns := 0, failFastEnabled := false, failures := [],
    filesWithMissingAvaImports := [], knownFailures := [], lastLineIsEmpty := false,
    matching := false, prefixer := .ident, previousFailures := 0,
    removePreviousListener := none, stats := none }

def sampleErr : Err :=
  { message := "boom", stack := "Error: boom\n  at a.js:3", summary := "Error: boom",
    source := none, avaAssertionError := false, nonErrorObject := false, formatted := "",
    fsePrintMessage := false, fseFormatted := "", improperUsage := "" }

def failA : FailEvt :=
  { id := 1, isHook := false, testFile := "a.js", title := "first", err := sampleErr,
    logs := [] }

def failB : FailEvt :=
  { id := 2, isHook := false, testFile := "a.js", title := "second", err := sampleErr,
    logs := [] }

def statsTwoFailed : Stats :=
  { failedHooks := 0, failedTests := 2, passedTests := 0, passedKnownFailingTests := 0,
    skippedTests := 0, todoTests := 0, unhandledRejections := 0, uncaughtExceptions := 0,
    remainingTests := 0, files := 1, finishedWorkers := 1, selectedTests := 2,
    byFile := [("a.js", { declaredTests := 2, remainingTests := 0 })] }

def c1Events : List Event :=
  [.statsEvent statsTwoFailed, .testFailed failA, .testFailed failB]

def c1Run : State × List Chunk := (consumeAll initState c1Events).getD (initState, [])

theorem C1_witness :
    c1Run.1.failures = failuresOfEvents c1Events ∧
    ∃ pre seps post, seps.length = c1Run.1.failures.length + 1 ∧
      endRun c1Run.1 "12:00:00" =
        pre ++ interleave (c1Run.1.failures.map (failBlock c1Run.1.prefixer)) seps ++ post :=
  C1_failure_blocks_in_arrival_order initState c1Events c1Run.1 c1Run.2 statsTwoFailed
    "12:00:00" rfl (by decide) (by decide) (by decide)

/-- C2 counterexample: a `worker-finished` event arriving before any
`stats` event (here: on a fresh reporter) makes `consumeStateChange`
throw — the JS code dereferences `fileStats.declaredTests` on `null` —
rather than return normally as the claim states. -/
theorem C2_counterexample :
    consumeStateChange initState (.workerFinished "a.js" false) = none := by
  decide

/-- C2 (amended): `consumeStateChange` returns normally for every event
except a `worker-finished` event that is not a forced exit, whose file is
not flagged as missing the ava import, and for which no per-file stats
exist (no `stats` snapshot yet, an empty file identifier, or a file absent
from `byFile`) — exactly there it throws; an unrecognized event type
causes no state mutation and no output. -/
theorem C2_amended_throws_only_on_missing_file_stats (st : State) (evt : Event) :
    (consumeStateChange st evt = none ↔
      ∃ tf, evt = .workerFinished tf false ∧ tf ∉ st.filesWithMissingAvaImports ∧
        fileStatsFor st tf = none) ∧
    consumeStateChange st .unknown = some (st, []) := by
  refine ⟨?_, rfl⟩
  cases evt <;> simp only [consumeStateChange] <;>
    first
    | (rename_i tf forced
       cases forced <;> by_cases hm : tf ∈ st.filesWithMissingAvaImports <;>
         rcases hfs : fileStatsFor st tf with _ | fs <;>
         simp [hm, hfs])
    | (split <;> simp)
    | simp

/-- C3 counterexample: with no `stats` snapshot, `endRun` does not write
only the "Couldn't find any files to test" message — it writes a blank
line after it. -/
theorem C3_counterexample :
    endRun initState "12:00:00" ≠
      [Chunk.line (colors.error ("  " ++ figCross ++ " Couldn't find any files to test"))] := by
  decide

/-- C3 (amended): if no stats event was ever consumed, `endRun` writes
exactly the "Couldn't find any files to test" message followed by one
blank line and no other output — no matching-tests check, count lines,
known-failures list, failure blocks or fail-fast disclaimer. -/
theorem C3_amended_no_stats_message_only (st : State) (now : String)
    (h : st.stats = none) :
    endRun st now =
      [Chunk.line (colors.error ("  " ++ figCross ++ " Couldn't find any files to test")),
       Chunk.line ""] := by
  simp [endRun, h]

theorem C3_witness :
    initState.stats = none ∧
    endRun initState "12:00:00" =
      [Chunk.line (colors.error ("  " ++ figCross ++ " Couldn't find any files to test")),
       Chunk.line ""] :=
  ⟨rfl, C3_amended_no_stats_message_only initState "12:00:00" rfl⟩

/-- The error-styled known-failing summary line is never the pass-styled
line, whatever follows the pass-styled prefix. -/
theorem errorTick_ne_passTick (x rest : String) :
    "  " ++ colors.error figTick ++ " " ++ colors.error x ≠
      "  " ++ colors.pass figTick ++ " " ++ rest := by
  intro hEq
  have hd : ("  " ++ colors.error figTick ++ " ").data ++ (colors.error x).data =
      ("  " ++ colors.pass figTick ++ " ").data ++ rest.data := by
    simpa [String.data_append, List.append_assoc] using congrArg String.data hEq
  have h14 := congrArg (fun l => List.take 14 l) hd
  simp only [List.take_append_eq_append_take] at h14
  rw [show ("  " ++ colors.error figTick ++ " ").data.length = 14 from by decide,
    show ("  " ++ colors.pass figTick ++ " ").data.length = 14 from by decide] at h14
  simp only [Nat.sub_self, List.take_zero, List.append_nil] at h14
  exact absurd h14 (by decide)

/-- C4: every `test-passed` event carrying `knownFailing` is recorded in
`knownFailures` in arrival order; its immediate summary line is the
error-styled tick line (`colors.error` on both tick and prefixed title)
and is never the pass-styled line of the primary pass rendering path; and
`endRun` (stats present, positive known-failing count, no early return)
renders one blank line and then exactly one `colors.error`-styled prefixed
title line per recorded known failure, in order. -/
theorem C4_known_failing_recorded_and_listed
    (st0 : State) (es : List Event) (st' : State) (out : List Chunk)
    (s : Stats) (now : String)
    (h0 : st0.knownFailures = [])
    (h : consumeAll st0 es = some (st', out))
    (hs : st'.stats = some s)
    (hm : ¬(st'.matching = true ∧ s.selectedTests = 0))
    (hk : 0 < s.passedKnownFailingTests) :
    st'.knownFailures = knownOfEvents es ∧
    (∀ (pfx : Prefixer) (e : PassEvt), e.knownFailing = true →
      writeTestSummaryLines pfx (.pass e) =
        ("  " ++ colors.error figTick ++ " "
          ++ colors.error (applyPrefixer pfx e.testFile e.title)) :: writeLogsLines e.logs ∧
      ∀ rest, ("  " ++ colors.error figTick ++ " "
          ++ colors.error (applyPrefixer pfx e.testFile e.title)) ≠
        "  " ++ colors.pass figTick ++ " " ++ rest) ∧
    endRun st' now =
      ([Chunk.line ""] ++ countsSection st'.watching st'.previousFailures s now)
      ++ (Chunk.line "" :: st'.knownFailures.map (fun e =>
            Chunk.line ("  " ++ colors.error (applyPrefixer st'.prefixer e.testFile e.title))))
      ++ (failuresSection st'.prefixer st'.failFastEnabled s st'.failures
          ++ disclaimerSection st'.failFastEnabled s ++ [Chunk.line ""]) := by
  have hks := (consumeAll_state_fields es st0 st' out h).2
  rw [h0, List.nil_append] at hks
  refine ⟨hks, ?_, ?_⟩
  · intro pfx e he
    exact ⟨by simp [writeTestSummaryLines, he],
      fun rest => errorTick_ne_passTick (applyPrefixer pfx e.testFile e.title) rest⟩
  · simp only [endRun, hs, if_neg hm]
    rw [knownSection, if_pos hk]
    simp [List.append_assoc]

def passKnown : PassEvt :=
  { id := 3, testFile := "a.js", title := "expected to fail", knownFailing := true,
    duration := 0, logs := [] }

def statsKnown : Stats :=
  { failedHooks := 0, failedTests := 0, passedTests := 0, passedKnownFailingTests := 1,
    skippedTests := 0, todoTests := 0, unhandledRejections := 0, uncaughtExceptions := 0,
    remainingTests := 0, files := 1, finishedWorkers := 1, selectedTests := 1,
    byFile := [("a.js", { declaredTests := 1, remainingTests := 0 })] }

def c4Events : List Event := [.statsEvent statsKnown, .testPassed passKnown]

def c4Run : State × List Chunk := (consumeAll initState c4Events).getD (initState, [])

theorem C4_witness :
    c4Run.1.knownFailures = knownOfEvents c4Events ∧
    (∀ (pfx : Prefixer) (e : PassEvt), e.knownFailing = true →
      writeTestSummaryLines pfx (.pass e) =
        ("  " ++ colors.error figTick ++ " "
          ++ colors.error (applyPrefixer pfx e.testFile e.title)) :: writeLogsLines e.logs ∧
      ∀ rest, ("  " ++ colors.error figTick ++ " "
          ++ colors.error (applyPrefixer pfx e.testFile e.title)) ≠
        "  " ++ colors.pass figTick ++ " " ++ rest) ∧
    endRun c4Run.1 "12:00:00" =
      ([Chunk.line ""] ++ countsSection c4Run.1.watching c4Run.1.previousFailures statsKnown "12:00:00")
      ++ (Chunk.line "" :: c4Run.1.knownFailures.map (fun e =>
            Chunk.line ("  " ++ colors.error (applyPrefixer c4Run.1.prefixer e.testFile e.title))))
      ++ (failuresSection c4Run.1.prefixer c4Run.1.failFastEnabled statsKnown c4Run.1.failures
          ++ disclaimerSection c4Run.1.failFastEnabled statsKnown ++ [Chunk.line ""]) :=
  C4_known_failing_recorded_and_listed initState c4Events c4Run.1 c4Run.2 statsKnown
    "12:00:00" rfl (by decide) (by decide) (by decide) (by decide)

/-- C5: `startRun` first unsubscribes the previous run's listener (inside
`reset`) and only then subscribes the new one; `reset` returns every
run-state field to its empty form; and the post-`startRun` state is a
function of the plan and the persistent constructor options alone, so no
event or failure from run N is visible in run N+1's `endRun` output. -/
theorem C5_startRun_fully_resets
    (s1 s2 : State) (p : Plan)
    (hw : s1.watching = s2.watching) (hc : s1.columns = s2.columns) :
    (reset s1).1 =
      { watching := s1.watching, columns := s1.columns, failFastEnabled := false,
        failures := [], filesWithMissingAvaImports := [], knownFailures := [],
        lastLineIsEmpty := false, matching := false, prefixer := .ident,
        previousFailures := 0, removePreviousListener := none, stats := none } ∧
    (startRun s1 p).2.1 =
      (match s1.removePreviousListener with
        | some i => [SubAction.unsubscribe i]
        | none => []) ++ [SubAction.subscribe p.subId] ∧
    (startRun s1 p).1 = (startRun s2 p).1 ∧
    ∀ (es : List Event) (now : String),
      (consumeAll (startRun s1 p).1 es).map (fun r => endRun r.1 now) =
      (consumeAll (startRun s2 p).1 es).map (fun r => endRun r.1 now) := by
  have hstate : (startRun s1 p).1 = (startRun s2 p).1 := by
    simp [startRun, reset, hw, hc]
  exact ⟨rfl, rfl, hstate, fun es now => by rw [hstate]⟩

/-- A reporter state mid-way through a previous run, holding failures,
known failures, a stats snapshot and an active subscription. -/
def dirtyState : State :=
  { watching := false, columns := 0, failFastEnabled := true, failures := [failA],
    filesWithMissingAvaImports := ["b.js"], knownFailures := [passKnown],
    lastLineIsEmpty := true, matching := true, prefixer := .withPrefix "src/",
    previousFailures := 4, removePreviousListener := some 7,
    stats := some statsTwoFailed }

def planB : Plan :=
  { failFastEnabled := false, matching := false, previousFailures := 0,
    files := ["a.js"], filePathPrefix := "", runVector := 2, subId := 8 }

theorem C5_witness :
    (reset dirtyState).1 =
      { watching := dirtyState.watching, columns := dirtyState.columns,
        failFastEnabled := false, failures := [], filesWithMissingAvaImports := [],
        knownFailures := [], lastLineIsEmpty := false, matching := false,
        prefixer := .ident, previousFailures := 0, removePreviousListener := none,
        stats := none } ∧
    (startRun dirtyState planB).2.1 =
      (match dirtyState.removePreviousListener with
        | some i => [SubAction.unsubscribe i]
        | none => []) ++ [SubAction.subscribe planB.subId] ∧
    (startRun dirtyState planB).1 = (startRun initState planB).1 ∧
    ∀ (es : List Event) (now : String),
      (consumeAll (startRun dirtyState planB).1 es).map (fun r => endRun r.1 now) =
      (consumeAll (startRun initState planB).1 es).map (fun r => endRun r.1 now) :=
  C5_startRun_fully_resets dirtyState initState planB rfl rfl

/-- The disclaimer wording as the spec states it: the "as well as" clause
appears exactly when both the remaining-tests count is positive and some
files never finished; "test was"/"tests were" and "test file"/"test files"
are singular exactly when the corresponding count equals 1. -/
def disclaimerSpecText (r files finished : Nat) : String :=
  let k := files - finished
  let testsClause := "At least " ++ toString r ++ " "
    ++ (if r = 1 then "test was" else "tests were") ++ " skipped"
  let filesCore := toString k ++ " " ++ (if k = 1 then "test file" else "test files")
  if 0 < r ∧ finished < files then testsClause ++ ", as well as " ++ filesCore
  else if 0 < r then testsClause
  else if finished < files then
    filesCore ++ " " ++ (if k = 1 then "was" else "were") ++ " skipped"
  else ""

def statsFailFast : Stats :=
  { failedHooks := 0, failedTests := 1, passedTests := 0, passedKnownFailingTests := 0,
    skippedTests := 0, todoTests := 0, unhandledRejections := 0, uncaughtExceptions := 0,
    remainingTests := 2, files := 5, finishedWorkers := 3, selectedTests := 3,
    byFile := [] }

def c6State : State :=
  { initState with failFastEnabled := true, stats := some statsFailFast }

/-- C6: with fail-fast on and stats `remainingTests 2, files 5,
finishedWorkers 3`, `endRun` emits the disclaimer line reading
"`--fail-fast` is on. At least 2 tests were skipped, as well as 2 test
files."; and in general the code's `remaining` string equals the
spec-side wording, whose structure places the ", as well as " join exactly
when both counts are positive and uses singular wording exactly for
count 1. -/
theorem C6_fail_fast_disclaimer :
    Chunk.line ("  " ++ colors.information
        "`--fail-fast` is on. At least 2 tests were skipped, as well as 2 test files.")
      ∈ endRun c6State "12:00:00" ∧
    remainingText 2 5 3 = "At least 2 tests were skipped, as well as 2 test files" ∧
    ∀ r files finished,
      remainingText r files finished = disclaimerSpecText r files finished := by
  refine ⟨by decide, by decide, ?_⟩
  intro r files finished
  by_cases hr : 0 < r <;> by_cases hf : finished < files
  · simp [remainingText, disclaimerSpecText, plur, hr, hf, hr.ne']
  · simp [remainingText, disclaimerSpecText, plur, hr, hf, hr.ne']
  · have hr0 : r = 0 := by omega
    simp [remainingText, disclaimerSpecText, plur, hr, hf, hr0, String.append_assoc]
  · have hr0 : r = 0 := by omega
    simp [remainingText, disclaimerSpecText, plur, hr, hf, hr0, String.append_assoc]

theorem intercalate_singleton {α : Type} (sep b : List α) :
    List.intercalate sep [b] = b := by
  simp [List.intercalate]

theorem intercalate_cons₂ {α : Type} (sep a b : List α) (l : List (List α)) :
    List.intercalate sep (a :: b :: l) = a ++ sep ++ List.intercalate sep (b :: l) := by
  simp [List.intercalate, List.intersperse, List.append_assoc]

theorem lastIdOf_mem (e : FailEvt) (es : List FailEvt) :
    lastIdOf e es ∈ (e :: es).map FailEvt.id := by
  induction es generalizing e with
  | nil => simp [lastIdOf]
  | cons g gs ih =>
    simp only [lastIdOf, List.map_cons, List.mem_cons]
    rcases List.mem_cons.mp (ih g) with h | h
    · exact Or.inr (Or.inl h)
    · exact Or.inr (Or.inr h)

theorem renderFailures_to_intercalate (pfx : Prefixer) (disc : Bool) :
    ∀ (fs : List FailEvt) (f : FailEvt),
      ((f :: fs).map FailEvt.id).Nodup →
      renderFailures pfx (lastIdOf f fs) disc (f :: fs) =
        List.intercalate blank3 ((f :: fs).map (failBlock pfx)) ++
          (if disc = true then blank3 else []) := by
  intro fs
  induction fs with
  | nil =>
    intro f _
    simp only [renderFailures, lastIdOf, List.map_cons, List.map_nil,
      intercalate_singleton]
    cases disc <;> simp
  | cons g gs ih =>
    intro f hnd
    simp only [List.map_cons, List.nodup_cons, List.mem_cons] at hnd
    have hne : f.id ≠ lastIdOf g gs := by
      intro hEq
      rcases List.mem_cons.mp (lastIdOf_mem g gs) with h | h
      · exact hnd.1 (Or.inl (hEq.trans h))
      · exact hnd.1 (Or.inr (hEq ▸ h))
    have hnd' : ((g :: gs).map FailEvt.id).Nodup := by
      simp only [List.map_cons, List.nodup_cons]
      exact hnd.2
    have hcall := ih g hnd'
    have hstep : renderFailures pfx (lastIdOf f (g :: gs)) disc (f :: g :: gs) =
        failBlock pfx f ++ blank3 ++
          renderFailures pfx (lastIdOf g gs) disc (g :: gs) := by
      show failBlock pfx f ++
          (if f.id ≠ lastIdOf g gs ∨ disc = true then blank3 else []) ++
          renderFailures pfx (lastIdOf g gs) disc (g :: gs) = _
      rw [if_pos (Or.inl hne)]
    rw [hstep, hcall]
    rw [show List.map (failBlock pfx) (f :: g :: gs) =
        failBlock pfx f :: failBlock pfx g :: List.map (failBlock pfx) gs from rfl]
    rw [intercalate_cons₂]
    simp [List.append_assoc]

def c7State : State :=
  { initState with stats := some statsTwoFailed, failures := [failA, failB] }

/-- C7: when at least one failure was recorded (failure events being
distinct objects), `endRun` writes one blank line before the first failure
block, exactly three blank lines between consecutive blocks, and three
blank lines after the last block exactly when the fail-fast disclaimer is
about to print. -/
theorem C7_failure_block_spacing
    (st : State) (s : Stats) (now : String)
    (hs : st.stats = some s)
    (hm : ¬(st.matching = true ∧ s.selectedTests = 0))
    (hne : st.failures ≠ [])
    (hnd : (st.failures.map FailEvt.id).Nodup) :
    endRun st now =
      ([Chunk.line ""] ++ countsSection st.watching st.previousFailures s now
        ++ knownSection st.prefixer s st.knownFailures)
      ++ [Chunk.line ""]
      ++ List.intercalate blank3 (st.failures.map (failBlock st.prefixer))
      ++ (if shouldDisc st.failFastEnabled s = true then blank3 else [])
      ++ disclaimerSection st.failFastEnabled s
      ++ [Chunk.line ""] := by
  rcases hfl : st.failures with _ | ⟨f, fs⟩
  · exact absurd hfl hne
  rw [hfl] at hnd
  simp only [endRun, hs, if_neg hm, hfl, failuresSection]
  rw [renderFailures_to_intercalate st.prefixer (shouldDisc st.failFastEnabled s) fs f hnd]
  simp [List.append_assoc]

theorem C7_witness :
    endRun c7State "12:00:00" =
      ([Chunk.line ""] ++ countsSection c7State.watching c7State.previousFailures
          statsTwoFailed "12:00:00"
        ++ knownSection c7State.prefixer statsTwoFailed c7State.knownFailures)
      ++ [Chunk.line ""]
      ++ List.intercalate blank3 (c7State.failures.map (failBlock c7State.prefixer))
      ++ (if shouldDisc c7State.failFastEnabled statsTwoFailed = true then blank3 else [])
      ++ disclaimerSection c7State.failFastEnabled statsTwoFailed
      ++ [Chunk.line ""] :=
  C7_failure_block_spacing c7State statsTwoFailed "12:00:00" rfl (by decide) (by decide)
    (by decide)

theorem two_space_prefix_ne_empty (x : String) : "  " ++ x ≠ "" := by
  intro h
  have hd := congrArg String.data h
  rw [String.data_append, show ("" : String).data = [] from rfl] at hd
  exact absurd (List.append_eq_nil.mp hd).1 (by decide)

theorem afterLines_concat_blank (s : State) (ls : List String) :
    afterLines s (ls ++ [""]) = { s with lastLineIsEmpty := true } := by
  unfold afterLines
  rw [List.getLast?_concat]
  rfl

/-- C8: an `uncaught-exception` / `unhandled-rejection` event writes, in
order: a preceding blank line only when the last written line was not
already blank, the title line, one blank line, the error detail block, and
one trailing blank line; processing it sets the blank-line flag, so of two
consecutive such events the first ends with a blank line and the second
starts directly with its (non-blank) title line — never two consecutive
blank lines at their boundary. -/
theorem C8_uncaught_shape_and_boundary (st : State) (tf : String) (err : Err) :
    consumeStateChange st (.uncaughtException tf err) =
      some ({ st with lastLineIsEmpty := true },
        ((if st.lastLineIsEmpty then [] else [""]) ++
          ["  " ++ colors.title ("Uncaught exception in " ++ pathRelative tf), ""] ++
          writeErrLines err ++ [""]).map Chunk.line) ∧
    consumeStateChange st (.unhandledRejection tf err) =
      some ({ st with lastLineIsEmpty := true },
        ((if st.lastLineIsEmpty then [] else [""]) ++
          ["  " ++ colors.title ("Unhandled rejection in " ++ pathRelative tf), ""] ++
          writeErrLines err ++ [""]).map Chunk.line) ∧
    ∀ (tf2 : String) (err2 : Err) (st1 : State) (o1 : List Chunk)
      (st2 : State) (o2 : List Chunk),
      consumeStateChange st (.uncaughtException tf err) = some (st1, o1) →
      consumeStateChange st1 (.uncaughtException tf2 err2) = some (st2, o2) →
      o1.getLast? = some (Chunk.line "") ∧
      o2.head? = some (Chunk.line ("  " ++ colors.title
        ("Uncaught exception in " ++ pathRelative tf2))) ∧
      "  " ++ colors.title ("Uncaught exception in " ++ pathRelative tf2) ≠ "" := by
  have hu : ∀ (s : State) (f : String) (e : Err),
      consumeStateChange s (.uncaughtException f e) =
        some ({ s with lastLineIsEmpty := true },
          ((if s.lastLineIsEmpty then [] else [""]) ++
            ["  " ++ colors.title ("Uncaught exception in " ++ pathRelative f), ""] ++
            writeErrLines e ++ [""]).map Chunk.line) := by
    intro s f e
    simp only [consumeStateChange]
    rw [afterLines_concat_blank]
  refine ⟨hu st tf err, ?_, ?_⟩
  · simp only [consumeStateChange]
    rw [afterLines_concat_blank]
  · intro tf2 err2 st1 o1 st2 o2 h1 h2
    rw [hu st tf err] at h1
    simp only [Option.some.injEq, Prod.mk.injEq] at h1
    obtain ⟨hst1, ho1⟩ := h1
    rw [← hst1] at h2
    rw [hu _ tf2 err2] at h2
    simp only [Option.some.injEq, Prod.mk.injEq] at h2
    obtain ⟨-, ho2⟩ := h2
    refine ⟨?_, ?_, two_space_prefix_ne_empty _⟩
    · rw [← ho1]
      rw [show ((if st.lastLineIsEmpty then [] else [""]) ++
          ["  " ++ colors.title ("Uncaught exception in " ++ pathRelative tf), ""] ++
          writeErrLines err ++ [""]).map Chunk.line =
        (((if st.lastLineIsEmpty then [] else [""]) ++
          ["  " ++ colors.title ("Uncaught exception in " ++ pathRelative tf), ""] ++
          writeErrLines err).map Chunk.line) ++ [Chunk.line ""] from by simp]
      exact List.getLast?_concat _
    · rw [← ho2]
      simp

def c8Run1 : State × List Chunk :=
  (consumeStateChange initState (.uncaughtException "a.js" sampleErr)).getD (initState, [])

def c8Run2 : State × List Chunk :=
  (consumeStateChange c8Run1.1 (.uncaughtException "b.js" sampleErr)).getD (initState, [])

theorem C8_witness :
    c8Run1.2.getLast? = some (Chunk.line "") ∧
    c8Run2.2.head? = some (Chunk.line ("  " ++ colors.title
      ("Uncaught exception in " ++ pathRelative "b.js"))) ∧
    "  " ++ colors.title ("Uncaught exception in " ++ pathRelative "b.js") ≠ "" :=
  (C8_uncaught_shape_and_boundary initState "a.js" sampleErr).2.2 "b.js" sampleErr
    c8Run1.1 c8Run1.2 c8Run2.1 c8Run2.2 (by decide) (by decide)

def c9Out : List Chunk :=
  ((consumeStateChange initState (.internalError (some "a.js") sampleErr)).getD
    (initState, [])).2

/-- C9 counterexample: the internal-error block does not end with exactly
two blank lines — the final `writeLine('\n\n')` contributes three blank
display lines (two newline characters plus the line terminator). -/
theorem C9_counterexample :
    endsWithExactlyTwoBlanks (displayLines c9Out) = false := by
  decide

/-- C9 (amended): an `internal-error` event writes the cross-mark line
naming the failing file (or the generic "Internal error" label when the
event carries no file), the indented error summary, the indented stack,
and a final write of the string `"\n\n"` — which renders as three blank
display lines. -/
theorem C9_internal_error_block (st : State) (tf : Option String) (err : Err) :
    consumeStateChange st (.internalError tf err) =
      some ({ st with lastLineIsEmpty := false },
        [Chunk.line (match tf with
            | some f => colors.error ("  " ++ figCross ++ " Internal error when running "
                ++ pathRelative f)
            | none => colors.error ("  " ++ figCross ++ " Internal error")),
         Chunk.line (indentString 2 (colors.stack err.summary)),
         Chunk.line (indentString 2 (colors.errorStack err.stack)),
         Chunk.line "\n\n"]) ∧
    splitLines "\n\n" = ["", "", ""] := by
  exact ⟨rfl, rfl⟩

theorem append_suffix_ne_empty (x p : String) (hp : p.data ≠ []) : x ++ p ≠ "" := by
  intro h
  have hd := congrArg String.data h
  rw [String.data_append, show ("" : String).data = [] from rfl] at hd
  exact hp (List.append_eq_nil.mp hd).2

theorem string_append_right_empty (s t : String) (h : s ++ t = s) : t = "" := by
  have hd := congrArg String.data h
  rw [String.data_append] at hd
  have hlen := congrArg List.length hd
  rw [List.length_append] at hlen
  have ht : t.data = [] := List.eq_nil_of_length_eq_zero (by omega)
  cases t with
  | mk d =>
    have hd0 : d = [] := by simpa using ht
    rw [hd0]

/-- C10: in `writeTestSummary`, a known-failing pass line never carries a
duration suffix, whatever the duration; a normal pass line carries the
suffix exactly when the duration strictly exceeds 100ms, so a duration of
exactly 100ms produces no suffix. -/
theorem C10_duration_suffix (pfx : Prefixer) (e : PassEvt) :
    (e.knownFailing = true →
      ∀ d₁ d₂, writeTestSummaryLines pfx (.pass { e with duration := d₁ }) =
        writeTestSummaryLines pfx (.pass { e with duration := d₂ })) ∧
    (e.knownFailing = false →
      (writeTestSummaryLines pfx (.pass e)).head? =
        some ("  " ++ colors.pass figTick ++ " " ++ applyPrefixer pfx e.testFile e.title
          ++ (if 100 < e.duration then colors.duration (" (" ++ prettyMs e.duration ++ ")")
              else "")) ∧
      ((writeTestSummaryLines pfx (.pass e)).head? =
          some ("  " ++ colors.pass figTick ++ " " ++ applyPrefixer pfx e.testFile e.title)
        ↔ e.duration ≤ 100)) := by
  constructor
  · intro he d₁ d₂
    simp [writeTestSummaryLines, he]
  · intro he
    refine ⟨by simp [writeTestSummaryLines, he], ?_⟩
    constructor
    · intro hh
      by_contra hgt
      rw [Nat.not_le] at hgt
      simp only [writeTestSummaryLines, he, Bool.false_eq_true, if_false, if_pos hgt,
        List.head?_cons, Option.some.injEq] at hh
      have hsfx := string_append_right_empty _ _ hh
      have : colors.duration (" (" ++ prettyMs e.duration ++ ")") ≠ "" := by
        rw [colors.duration, styleWrap,
          if_neg (append_suffix_ne_empty (" (" ++ prettyMs e.duration) ")" (by decide))]
        exact append_suffix_ne_empty _ _ (by decide)
      exact this hsfx
    · intro hle
      have : ¬(100 < e.duration) := Nat.not_lt.mpr hle
      simp [writeTestSummaryLines, he, this]

def passSlow : PassEvt :=
  { id := 9, testFile := "a.js", title := "at threshold", knownFailing := false,
    duration := 100, logs := [] }

theorem C10_witness :
    writeTestSummaryLines .ident (.pass { passKnown with duration := 5 }) =
      writeTestSummaryLines .ident (.pass { passKnown with duration := 500 }) ∧
    ((writeTestSummaryLines .ident (.pass passSlow)).head? =
        some ("  " ++ colors.pass figTick ++ " "
          ++ applyPrefixer .ident passSlow.testFile passSlow.title)
      ↔ passSlow.duration ≤ 100) :=
  ⟨(C10_duration_suffix .ident passKnown).1 rfl 5 500,
   ((C10_duration_suffix .ident passSlow).2 rfl).2⟩
